import Mathlib

/-!
Verification of the notification-dispatch core of the wp-order-confirmation
service (src/index.js).  JavaScript values are shallowly embedded:

* JS strings are Lean `String`s; `.length` is UTF-16 length (`jsLength`);
* `undefined`/`null` option-like field values are `Option`s where the code
  only distinguishes truthy from falsy, and the three-state `JField`
  (absent / null / value) where the code's guards distinguish a missing
  object from a present one (member access on absent/null raises, which is
  modelled in the `Except String` monad);
* JS `||` on strings treats `""`, `null`, `undefined` as falsy (`jsOr`);
* template-literal interpolation of a possibly-undefined string renders
  "undefined" (`jsStr`).
-/

namespace WpOC

/-- Characters matched by the JS regex class `\s`. -/
def isJsWhitespace (c : Char) : Bool :=
  c = ' ' || c = '\t' || c = '\n' || c = '\r' ||
  c.val = 11 || c.val = 12 || c.val = 0xa0 || c.val = 0x1680 ||
  (0x2000 ≤ c.val && c.val ≤ 0x200a) ||
  c.val = 0x2028 || c.val = 0x2029 || c.val = 0x202f ||
  c.val = 0x205f || c.val = 0x3000 || c.val = 0xfeff

/-- Number of UTF-16 code units a character occupies (JS `.length` counts these). -/
def utf16Len (c : Char) : Nat := if c.val < 65536 then 1 else 2

/-- UTF-16 length of a character list. -/
def jsLenData : List Char → Nat
  | [] => 0
  | c :: rest => utf16Len c + jsLenData rest

/-- JS `.length` of a string (UTF-16 code units). -/
def jsLength (s : String) : Nat := jsLenData s.data

/-- JS `str.replace(/\s+/g, "")`: delete every whitespace character. -/
def stripJsWhitespace (s : String) : String :=
  String.mk (s.data.filter (fun c => !isJsWhitespace c))

/-- JS `str.replace(/^\+/, "")`: delete one leading `+` if present. -/
def stripLeadingPlus (s : String) : String :=
  match s.data with
  | '+' :: rest => String.mk rest
  | _ => s

/-- JS `s.startsWith(p)` (prefixes used here are BMP-only, so comparing
characters agrees with comparing UTF-16 units). -/
def jsStartsWith (s p : String) : Bool := p.data.isPrefixOf s.data

/-- JS `s.substring(1)`.  In the source this is only applied to strings that
start with `"0"`, a one-unit character, so dropping one character is exact. -/
def jsSubstringOne (s : String) : String := String.mk (s.data.drop 1)

/-- JS `s.trim()`. -/
def jsTrim (s : String) : String :=
  String.mk (((s.data.dropWhile isJsWhitespace).reverse.dropWhile isJsWhitespace).reverse)

/-- JS `a || b` where `a` is a string-or-missing value: `""`, `null` and
`undefined` are falsy. -/
def jsOr (a : Option String) (b : Option String) : Option String :=
  match a with
  | some s => if s = "" then b else some s
  | none => b

/-- JS `a || d` with a string literal default. -/
def jsOrD (a : Option String) (d : String) : String :=
  match a with
  | some s => if s = "" then d else s
  | none => d

/-- Template-literal interpolation of a possibly-undefined string value. -/
def jsStr (a : Option String) : String :=
  match a with
  | some s => s
  | none => "undefined"

/-- Shape of `customer.default_address` (only its `phone` is read). -/
structure DefaultAddress where
  phone : Option String
deriving DecidableEq, Repr

/-- Shape of the `customer` field of an order payload. -/
structure Customer where
  first_name : Option String
  last_name : Option String
  phone : Option String
  default_address : Option DefaultAddress
deriving DecidableEq, Repr

/-- src/index.js:110-152, `getCustomerPhone` (the spec's PhoneNormalizer).
`none` models the JS `null` returns (no customer, no phone, invalid phone). -/
def getCustomerPhone (customer : Option Customer) : Option String :=
  match customer with
  | none => none
  | some c =>
    -- const rawPhone = customer.phone || customer.default_address?.phone || null
    match jsOr (jsOr c.phone (c.default_address.bind DefaultAddress.phone)) none with
    | none => none
    | some rawPhone =>
      -- let cleanedPhone = rawPhone.replace(/\s+/g, "").replace(/^\+/, "")
      let cleanedPhone := stripLeadingPlus (stripJsWhitespace rawPhone)
      if cleanedPhone = "" ∨ jsLength cleanedPhone < 10 then none
      else if jsStartsWith cleanedPhone "91" = true ∧ jsLength cleanedPhone = 12 then
        some cleanedPhone
      else if jsLength cleanedPhone = 10 ∧ jsStartsWith cleanedPhone "91" = false then
        some ("91" ++ cleanedPhone)
      else if jsLength cleanedPhone = 11 ∧ jsStartsWith cleanedPhone "0" = true then
        some ("91" ++ jsSubstringOne cleanedPhone)
      else if jsLength cleanedPhone = 12 then
        some cleanedPhone
      else none

/-- A customer record whose only populated field is `phone`, used to feed a
raw phone string into `getCustomerPhone`. -/
def customerWithPhone (raw : String) : Option Customer :=
  some { first_name := none, last_name := none, phone := some raw, default_address := none }

/-- The cleaned phone string: whitespace stripped, then one leading `+`. -/
def cleanedOf (raw : String) : String := stripLeadingPlus (stripJsWhitespace raw)

/-- Every character is an ASCII digit. -/
def allDigits (s : String) : Bool := s.data.all Char.isDigit

theorem string_data_append (a b : String) : (a ++ b).data = a.data ++ b.data := by
  cases a; cases b; rfl

theorem jsLenData_append (a b : List Char) :
    jsLenData (a ++ b) = jsLenData a + jsLenData b := by
  induction a with
  | nil => simp [jsLenData]
  | cons c rest ih => simp [jsLenData, ih]; omega

theorem jsLength_append (a b : String) :
    jsLength (a ++ b) = jsLength a + jsLength b := by
  simp [jsLength, string_data_append, jsLenData_append]

theorem jsLength_of_empty (s : String) (h : s = "") : jsLength s = 0 := by
  subst h; rfl

theorem startsWith_zero_shape (s : String) (h : jsStartsWith s "0" = true) :
    ∃ t, s.data = '0' :: t := by
  have h' : List.isPrefixOf ['0'] s.data = true := h
  cases hd : s.data with
  | nil => rw [hd] at h'; simp [List.isPrefixOf] at h'
  | cons c t =>
    rw [hd] at h'
    simp [List.isPrefixOf] at h'
    exact ⟨t, by rw [← h']⟩

/-- `getCustomerPhone` applied to a customer that only has a non-empty raw
phone string reduces to the cleaning-and-classification chain. -/
theorem getCustomerPhone_customerWithPhone (raw : String) (hraw : ¬raw = "") :
    getCustomerPhone (customerWithPhone raw) =
      (if cleanedOf raw = "" ∨ jsLength (cleanedOf raw) < 10 then none
       else if jsStartsWith (cleanedOf raw) "91" = true ∧ jsLength (cleanedOf raw) = 12 then
         some (cleanedOf raw)
       else if jsLength (cleanedOf raw) = 10 ∧ jsStartsWith (cleanedOf raw) "91" = false then
         some ("91" ++ cleanedOf raw)
       else if jsLength (cleanedOf raw) = 11 ∧ jsStartsWith (cleanedOf raw) "0" = true then
         some ("91" ++ jsSubstringOne (cleanedOf raw))
       else if jsLength (cleanedOf raw) = 12 then
         some (cleanedOf raw)
       else none) := by
  simp [getCustomerPhone, customerWithPhone, jsOr, hraw, cleanedOf]

/-- C1: counterexample.  The 12-character all-letters input "abcdefghijkl" is
returned unchanged by `getCustomerPhone` (src/index.js:144-147 accepts any
cleaned 12-character string), so a successful result may contain non-digits
and need not begin with "91", contradicting the claimed invariant. -/
theorem C1_normalized_shape_cex :
    getCustomerPhone (customerWithPhone "abcdefghijkl") = some "abcdefghijkl" ∧
    jsStartsWith "abcdefghijkl" "91" = false ∧
    allDigits "abcdefghijkl" = false ∧
    jsLength "abcdefghijkl" = 12 := by decide

/-- C1 (amended): for every customer input on which `getCustomerPhone`
succeeds, the returned string has length exactly 12; it is not guaranteed to
consist only of digits nor to begin with "91" (a cleaned 12-character input
of any content is accepted as-is). -/
theorem C1_normalized_length (customer : Option Customer) (s : String)
    (h : getCustomerPhone customer = some s) : jsLength s = 12 := by
  cases customer with
  | none => simp [getCustomerPhone] at h
  | some c =>
    simp only [getCustomerPhone] at h
    split at h
    · simp at h
    · next rawPhone heq =>
      split at h
      · exact absurd h (by simp)
      · split at h
        · next hc =>
          obtain ⟨_, hlen⟩ := hc
          obtain rfl : _ = s := Option.some.inj h
          exact hlen
        · split at h
          · next hc =>
            obtain ⟨hlen, _⟩ := hc
            obtain rfl : _ = s := Option.some.inj h
            rw [jsLength_append, hlen]
            decide
          · split at h
            · next hc =>
              obtain ⟨hlen, hz⟩ := hc
              obtain rfl : _ = s := Option.some.inj h
              obtain ⟨t, ht⟩ := startsWith_zero_shape _ hz
              rw [jsLength_append]
              have h10 : jsLenData t = 10 := by
                have : jsLength (stripLeadingPlus (stripJsWhitespace rawPhone)) =
                    utf16Len '0' + jsLenData t := by
                  simp [jsLength, ht, jsLenData]
                rw [this] at hlen
                simp [utf16Len] at hlen
                omega
              have hsub : jsLength (jsSubstringOne (stripLeadingPlus (stripJsWhitespace rawPhone))) = 10 := by
                simp [jsSubstringOne, jsLength, ht, h10]
              rw [hsub]
              decide
            · split at h
              · next hc =>
                obtain rfl : _ = s := Option.some.inj h
                exact hc
              · exact absurd h (by simp)

/-- C1 (amended) witness: instantiated at a concrete bare 10-digit phone. -/
theorem C1_normalized_length_witness : jsLength "919876543210" = 12 :=
  C1_normalized_length (customerWithPhone "9876543210") "919876543210" (by decide)

/-- C2: the four PhoneNormalizer cases of the claim, stated on the cleaned
form of an arbitrary raw input: a 10-digit string not starting with "91" gets
"91" prepended; a 12-digit "91"-prefixed string is returned as-is; an
11-digit string starting with "0" becomes "91" plus its last 10 characters;
and any input whose cleaned form is shorter than 10 fails (`none`). -/
theorem C2_normalizer_cases (raw : String) :
    (jsLength (cleanedOf raw) = 10 → allDigits (cleanedOf raw) = true →
      jsStartsWith (cleanedOf raw) "91" = false →
      getCustomerPhone (customerWithPhone raw) = some ("91" ++ cleanedOf raw)) ∧
    (jsLength (cleanedOf raw) = 12 → allDigits (cleanedOf raw) = true →
      jsStartsWith (cleanedOf raw) "91" = true →
      getCustomerPhone (customerWithPhone raw) = some (cleanedOf raw)) ∧
    (jsLength (cleanedOf raw) = 11 → allDigits (cleanedOf raw) = true →
      jsStartsWith (cleanedOf raw) "0" = true →
      getCustomerPhone (customerWithPhone raw) = some ("91" ++ jsSubstringOne (cleanedOf raw))) ∧
    (jsLength (cleanedOf raw) < 10 → getCustomerPhone (customerWithPhone raw) = none) := by
  by_cases hraw : raw = ""
  · subst hraw
    refine ⟨?_, ?_, ?_, ?_⟩ <;> intro h <;> first
      | (exfalso; revert h; decide)
      | decide
  · rw [show getCustomerPhone (customerWithPhone raw) = _ from
      getCustomerPhone_customerWithPhone raw hraw]
    have hne : ∀ n, jsLength (cleanedOf raw) = n → n ≠ 0 → ¬cleanedOf raw = "" := by
      intro n hn hnz hc
      rw [jsLength_of_empty _ hc] at hn
      omega
    refine ⟨?_, ?_, ?_, ?_⟩
    · intro hlen _ hpre
      rw [if_neg (by rw [hlen]; push_neg; exact ⟨hne 10 hlen (by omega), by omega⟩)]
      rw [if_neg (by rw [hlen]; rintro ⟨-, h⟩; omega)]
      rw [if_pos ⟨hlen, hpre⟩]
    · intro hlen _ hpre
      rw [if_neg (by rw [hlen]; push_neg; exact ⟨hne 12 hlen (by omega), by omega⟩)]
      rw [if_pos ⟨hpre, hlen⟩]
    · intro hlen _ hpre
      rw [if_neg (by rw [hlen]; push_neg; exact ⟨hne 11 hlen (by omega), by omega⟩)]
      rw [if_neg (by rw [hlen]; rintro ⟨-, h⟩; omega)]
      rw [if_neg (by rw [hlen]; rintro ⟨h, -⟩; omega)]
      rw [if_pos ⟨hlen, hpre⟩]
    · intro hlen
      rw [if_pos (Or.inr hlen)]

/-- C2 witness: the four cases evaluated at concrete inputs. -/
theorem C2_normalizer_cases_witness :
    getCustomerPhone (customerWithPhone "9876543210") = some "919876543210" ∧
    getCustomerPhone (customerWithPhone "+91 98765 43210") = some "919876543210" ∧
    getCustomerPhone (customerWithPhone "09876543210") = some "919876543210" ∧
    getCustomerPhone (customerWithPhone "98765") = none :=
  ⟨((C2_normalizer_cases "9876543210").1 (by decide) (by decide) (by decide)).trans (by decide),
   ((C2_normalizer_cases "+91 98765 43210").2.1 (by decide) (by decide) (by decide)).trans (by decide),
   ((C2_normalizer_cases "09876543210").2.2.1 (by decide) (by decide) (by decide)).trans (by decide),
   (C2_normalizer_cases "98765").2.2.2 (by decide)⟩

/-! ## AdminDirectory (src/index.js:154-179, `getAdminDetails`) -/

/-- One resolved admin recipient. -/
structure AdminRecipient where
  phone : String
  name : String
  contact : String
deriving DecidableEq, Repr

/-- JS `s.split(',')` on a character list: every comma is a separator, and
the empty string splits to one empty token. -/
def splitCommaChars : List Char → List (List Char)
  | [] => [[]]
  | c :: rest =>
    if c = ',' then [] :: splitCommaChars rest
    else
      match splitCommaChars rest with
      | h :: t => (c :: h) :: t
      | [] => [[c]]

/-- JS `s.split(',')`. -/
def jsSplitComma (s : String) : List String :=
  (splitCommaChars s.data).map String.mk

/-- JS ternary `cfg ? cfg.split(',').map(x => x.trim()) : []` with string
truthiness (unset or empty configuration yields the empty list). -/
def splitConfig (cfg : Option String) : List String :=
  match jsOr cfg none with
  | some s => (jsSplitComma s).map jsTrim
  | none => []

/-- src/index.js:155-174, `getAdminDetails`, with the three environment
variables (`ADMIN_WHATSAPP_NUMBERS`, `ADMIN_NAMES`, `ADMIN_CONTACTS`) passed
as parameters. -/
def getAdminDetails (adminNumbers adminNames adminContacts : Option String) :
    List AdminRecipient :=
  -- if (!adminNumbers) return []
  match jsOr adminNumbers none with
  | none => []
  | some ns =>
    let numbers := ((jsSplitComma ns).map jsTrim).filter (fun num => 0 < jsLength num)
    let names := splitConfig adminNames
    let contacts := splitConfig adminContacts
    numbers.enum.map (fun p =>
      { phone := if jsStartsWith p.2 "91" = true then p.2 else "91" ++ p.2
        name := jsOrD (names.get? p.1) "Admin"
        contact := jsOrD (contacts.get? p.1) p.2 })

/-- Modelled from the claim/spec wording for AdminDirectory: one recipient per
non-empty trimmed number token; phone is the token itself when it already
starts with "91" and "91" prepended otherwise (no further validation); the
index-aligned name token is used when present and non-empty, else "Admin";
the index-aligned contact token when present and non-empty, else the raw
number token; empty or unset numbers configuration yields the empty sequence. -/
def adminDirectorySpec (adminNumbers adminNames adminContacts : Option String) :
    List AdminRecipient :=
  match adminNumbers with
  | none => []
  | some ns =>
    if ns = "" then []
    else
      let tokens := ((jsSplitComma ns).map jsTrim).filter (fun t => ¬t = "")
      let nameTokens := match adminNames with
        | some s => if s = "" then [] else (jsSplitComma s).map jsTrim
        | none => []
      let contactTokens := match adminContacts with
        | some s => if s = "" then [] else (jsSplitComma s).map jsTrim
        | none => []
      tokens.enum.map (fun p =>
        { phone := if jsStartsWith p.2 "91" = true then p.2 else "91" ++ p.2
          name := match nameTokens.get? p.1 with
            | some n => if n = "" then "Admin" else n
            | none => "Admin"
          contact := match contactTokens.get? p.1 with
            | some ct => if ct = "" then p.2 else ct
            | none => p.2 })

theorem jsLength_eq_zero_iff (s : String) : jsLength s = 0 ↔ s = "" := by
  obtain ⟨l⟩ := s
  constructor
  · intro h
    cases l with
    | nil => decide
    | cons c t =>
      exfalso
      have h1 : 1 ≤ utf16Len c := by unfold utf16Len; split <;> omega
      simp [jsLength, jsLenData] at h
      omega
  · intro h; rw [h]; rfl

theorem jsLength_pos_iff (s : String) : (0 < jsLength s) ↔ ¬s = "" := by
  rw [Nat.pos_iff_ne_zero]
  exact not_congr (jsLength_eq_zero_iff s)

theorem splitConfig_eq (cfg : Option String) :
    splitConfig cfg =
      (match cfg with
       | some s => if s = "" then [] else (jsSplitComma s).map jsTrim
       | none => []) := by
  cases cfg with
  | none => rfl
  | some s => by_cases hs : s = "" <;> simp [splitConfig, jsOr, hs]

/-- C7: `getAdminDetails` coincides with the directory the claim describes on
every configuration triple. -/
theorem C7_admin_directory (adminNumbers adminNames adminContacts : Option String) :
    getAdminDetails adminNumbers adminNames adminContacts =
      adminDirectorySpec adminNumbers adminNames adminContacts := by
  cases adminNumbers with
  | none => rfl
  | some ns =>
    by_cases hns : ns = ""
    · subst hns; rfl
    · have hfilter :
          ((jsSplitComma ns).map jsTrim).filter (fun num => 0 < jsLength num) =
            ((jsSplitComma ns).map jsTrim).filter (fun t => ¬t = "") := by
        apply List.filter_congr
        intro a _
        exact decide_eq_decide.mpr (jsLength_pos_iff a)
      simp only [getAdminDetails, adminDirectorySpec, jsOr, if_neg hns,
        splitConfig_eq, hfilter]
      rfl

/-! ## FanoutCoordinator (src/index.js:302-357, `sendAdminWhatsapp`) -/

/-- One attempted WhatsApp template dispatch (modelling one `axios.post`).
Template parameters are JS strings-or-undefined. -/
structure SendAttempt where
  phone : String
  templateName : String
  params : List (Option String)
deriving DecidableEq, Repr

/-- JS `Promise.all`: resolves with all values, rejects with the first
rejection. -/
def promiseAll : List (Except String Unit) → Except String (List Unit)
  | [] => .ok []
  | p :: rest =>
    match p with
    | .error e => .error e
    | .ok a =>
      match promiseAll rest with
      | .error e => .error e
      | .ok As => .ok (a :: As)

/-- A `try { ... } catch (err) { console.error(...) }` block around an awaited
value: failures are logged and swallowed. -/
def swallow {α : Type} : Except String α → Except String Unit
  | .error _ => .ok ()
  | .ok _ => .ok ()

theorem swallow_eq {α : Type} (x : Except String α) : swallow x = .ok () := by
  cases x <;> rfl

/-- src/index.js:315-350 — the per-admin async task of `sendAdminWhatsapp`:
builds `[admin.name, ...baseParams]`, attempts one `axios.post` (whose
success is abstracted by the oracle `sendFails`), and catches any failure so
the task always resolves. -/
def adminSendTask (sendFails : AdminRecipient → Bool) (templateName : String)
    (baseParams : List (Option String)) (admin : AdminRecipient) :
    SendAttempt × Except String Unit :=
  let params := some admin.name :: baseParams
  let attempt : SendAttempt := ⟨admin.phone, templateName, params⟩
  let outcome : Except String Unit :=
    if sendFails admin then .error "Admin WhatsApp Error" else .ok ()
  (attempt, swallow outcome)

/-- src/index.js:302-357, `sendAdminWhatsapp` (the spec's FanoutCoordinator).
The admin directory (`getAdminDetails()` in the source) and per-recipient
send outcomes are parameters.  Returns the list of dispatch attempts made,
in directory order, and the overall outcome (`.ok ()` = the call returned
without raising). -/
def sendAdminWhatsapp (adminDetails : List AdminRecipient) (templateName : String)
    (baseParams : List (Option String)) (sendFails : AdminRecipient → Bool) :
    List SendAttempt × Except String Unit :=
  if adminDetails.length = 0 then
    ([], .ok ())  -- "❌ No admin details configured": early return, no attempts
  else
    let tasks := adminDetails.map (adminSendTask sendFails templateName baseParams)
    (tasks.map Prod.fst, swallow (promiseAll (tasks.map Prod.snd)))

/-- C3: on a non-empty directory, every recipient gets exactly one dispatch
attempt with parameters `[recipient.name, ...baseParams]`, in directory
order, whichever individual sends fail, and the broadcast returns without
raising. -/
theorem C3_fanout_isolation (adminDetails : List AdminRecipient)
    (templateName : String) (baseParams : List (Option String))
    (sendFails : AdminRecipient → Bool) (hne : ¬adminDetails = []) :
    sendAdminWhatsapp adminDetails templateName baseParams sendFails =
      (adminDetails.map (fun admin =>
        { phone := admin.phone, templateName := templateName
          params := some admin.name :: baseParams }),
       Except.ok ()) := by
  unfold sendAdminWhatsapp
  rw [if_neg (by simpa using hne)]
  simp only [swallow_eq, List.map_map]
  rfl

/-- C3 witness: three concrete admins where the middle send fails; all three
attempts happen and the broadcast resolves. -/
theorem C3_fanout_isolation_witness :
    sendAdminWhatsapp
        [⟨"919000000001", "Alpha", "c1"⟩, ⟨"919000000002", "Beta", "c2"⟩,
         ⟨"919000000003", "Gamma", "c3"⟩]
        "admin_new_order" [some "p1", some "p2"]
        (fun a => a.name == "Beta") =
      ([⟨"919000000001", "admin_new_order", [some "Alpha", some "p1", some "p2"]⟩,
        ⟨"919000000002", "admin_new_order", [some "Beta", some "p1", some "p2"]⟩,
        ⟨"919000000003", "admin_new_order", [some "Gamma", some "p1", some "p2"]⟩],
       Except.ok ()) :=
  (C3_fanout_isolation _ _ _ _ (by decide)).trans (by rfl)

/-! ## TrackingExtractor (src/index.js:182-264, `extractTrackingInfo`)

The nested structures the function guards against are modelled three-state
(`JField`): absent (`undefined`), `null`, or present.  Member access on an
absent/null base raises a TypeError in JS, so every such access goes through
`jget` in the `Except String` monad; the theorems show the source's guards
make the whole extraction total. -/

/-- A JS object field that may be `undefined`, `null`, or a present value. -/
inductive JField (α : Type) where
  | absent
  | nullv
  | val (a : α)
deriving DecidableEq, Repr

/-- Member access on a field's value: a TypeError when the base is
`undefined` or `null`. -/
def jget {α : Type} : JField α → Except String α
  | .absent => .error "TypeError: cannot read properties of undefined"
  | .nullv => .error "TypeError: cannot read properties of null"
  | .val a => .ok a

/-- Truthiness of an object- or array-valued field: any present object is
truthy (`[]` included). -/
def jTruthyObj {α : Type} : JField α → Bool
  | .val _ => true
  | _ => false

/-- Truthiness of a string-valued field: `""` is falsy. -/
def jTruthyStr : JField String → Bool
  | .val s => decide (¬s = "")
  | _ => false

/-- JS `arr[i]`: `undefined` when out of range. -/
def jelem {α : Type} (l : List α) (i : Nat) : JField α :=
  match l.get? i with
  | some a => .val a
  | none => .absent

/-- JS `x && x.length > 0` on an array-valued field (the `.length` access is
only evaluated when `x` is truthy). -/
def jArrNonempty {α : Type} (f : JField (List α)) : Except String Bool :=
  if jTruthyObj f = true then
    match jget f with
    | .error e => .error e
    | .ok l => .ok (decide (0 < l.length))
  else .ok false

/-- One entry of `order.fulfillments`. -/
structure Fulfillment where
  tracking_numbers : JField (List String)
  tracking_number : JField String
  tracking_urls : JField (List String)
  tracking_url : JField String
  tracking_company : JField String
deriving DecidableEq, Repr

/-- The per-line-item `item.fulfillment` object. -/
structure ItemFulfillment where
  tracking_number : JField String
deriving DecidableEq, Repr

/-- One entry of `order.line_items`. -/
structure LineItem where
  name : Option String
  quantity : Nat
  fulfillment : JField ItemFulfillment
deriving DecidableEq, Repr

/-- One entry of `order.shipping_lines` (inspected for logging only). -/
structure ShippingLine where
  title : Option String
  carrier_identifier : Option String
  code : Option String
deriving DecidableEq, Repr

/-- Shape of `shipping_address` / `billing_address`. -/
structure Address where
  name : Option String
  address1 : Option String
  address2 : Option String
  city : Option String
  province : Option String
  zip : Option String
  country : Option String
deriving DecidableEq, Repr

/-- An order webhook payload (the fields src/index.js reads). -/
structure Order where
  name : Option String
  total_price : Option String
  customer : Option Customer
  gateway : Option String
  shipping_address : Option Address
  billing_address : Option Address
  line_items : JField (List LineItem)
  fulfillments : JField (List Fulfillment)
  shipping_lines : JField (List ShippingLine)
deriving DecidableEq, Repr

/-- The result record of `extractTrackingInfo`. -/
structure TrackingInfo where
  trackingNumber : String
  trackingLink : String
  trackingCompany : String
deriving DecidableEq, Repr

/-- src/index.js:186-200 — the diagnostic logging pass over fulfillments
(console output only; its member accesses are guarded). -/
def debugFulfillments (fulfillments : JField (List Fulfillment)) : Except String Unit :=
  match jArrNonempty fulfillments with
  | .error e => .error e
  | .ok hasSome =>
    if hasSome = true then
      match jget fulfillments with
      | .error e => .error e
      | .ok _fl => .ok ()  -- forEach: console.log of each entry's tracking fields
    else .ok ()  -- "⚠️ No fulfillments found in order"

/-- src/index.js:211-215 — tracking number from the first fulfillment:
a non-empty `tracking_numbers` array wins over a truthy `tracking_number`. -/
def pickTrackingNumber (fulfillment : Fulfillment) : Except String String :=
  match jArrNonempty fulfillment.tracking_numbers with
  | .error e => .error e
  | .ok hasNums =>
    if hasNums = true then
      match jget fulfillment.tracking_numbers with
      | .error e => .error e
      | .ok ns => .ok (ns.headD "")  -- ns[0]; the guard ensures ns is non-empty
    else if jTruthyStr fulfillment.tracking_number = true then
      jget fulfillment.tracking_number
    else
      .ok "Not Available"  -- the initialised default is left in place

/-- src/index.js:218-222 — tracking link, same shape as the number. -/
def pickTrackingLink (fulfillment : Fulfillment) : Except String String :=
  match jArrNonempty fulfillment.tracking_urls with
  | .error e => .error e
  | .ok hasUrls =>
    if hasUrls = true then
      match jget fulfillment.tracking_urls with
      | .error e => .error e
      | .ok us => .ok (us.headD "")
    else if jTruthyStr fulfillment.tracking_url = true then
      jget fulfillment.tracking_url
    else
      .ok "No link"

/-- src/index.js:225-227 — tracking company from the first fulfillment. -/
def pickTrackingCompany (fulfillment : Fulfillment) : Except String String :=
  if jTruthyStr fulfillment.tracking_company = true then
    jget fulfillment.tracking_company
  else
    .ok "Not specified"

/-- src/index.js:202-228 — defaults, then the first-fulfillment scan. -/
def fulfillmentPhase (fulfillments : JField (List Fulfillment)) :
    Except String (String × String × String) :=
  match jArrNonempty fulfillments with
  | .error e => .error e
  | .ok hasSome =>
    if hasSome = true then
      match jget fulfillments with
      | .error e => .error e
      | .ok fl =>
        match jget (jelem fl 0) with  -- order.fulfillments[0]
        | .error e => .error e
        | .ok fulfillment =>
          match pickTrackingNumber fulfillment with
          | .error e => .error e
          | .ok tn =>
            match pickTrackingLink fulfillment with
            | .error e => .error e
            | .ok tl =>
              match pickTrackingCompany fulfillment with
              | .error e => .error e
              | .ok tc => .ok (tn, tl, tc)
    else .ok ("Not Available", "No link", "Not specified")

/-- src/index.js:233-238 — body of the per-line-item scan: use
`item.fulfillment.tracking_number` when present and the number is still the
default. -/
def lineItemStep (tn : String) (item : LineItem) : Except String String :=
  if jTruthyObj item.fulfillment = true then
    match jget item.fulfillment with
    | .error e => .error e
    | .ok f =>
      if jTruthyStr f.tracking_number = true then
        match jget f.tracking_number with
        | .error e => .error e
        | .ok t => if tn = "Not Available" then .ok t else .ok tn
      else .ok tn
  else .ok tn

/-- The `forEach` over line items as a left-to-right loop on the mutable
`trackingNumber`. -/
def lineItemsLoop (items : List LineItem) (tn : String) : Except String String :=
  match items with
  | [] => .ok tn
  | item :: rest =>
    match lineItemStep tn item with
    | .error e => .error e
    | .ok tn2 => lineItemsLoop rest tn2

/-- src/index.js:231-240 — the guarded line-item scan. -/
def lineItemPhase (line_items : JField (List LineItem)) (tn : String) :
    Except String String :=
  if jTruthyObj line_items = true then
    match jget line_items with
    | .error e => .error e
    | .ok items => lineItemsLoop items tn
  else .ok tn

/-- src/index.js:243-251 — shipping lines are logged only. -/
def shippingPhase (shipping_lines : JField (List ShippingLine)) : Except String Unit :=
  if jTruthyObj shipping_lines = true then
    match jget shipping_lines with
    | .error e => .error e
    | .ok _sl => .ok ()  -- forEach: console.log of title/carrier_identifier/code
  else .ok ()

/-- src/index.js:182-264, `extractTrackingInfo` (the spec's TrackingExtractor). -/
def extractTrackingInfoE (order : Order) : Except String TrackingInfo :=
  match debugFulfillments order.fulfillments with
  | .error e => .error e
  | .ok _ =>
    match fulfillmentPhase order.fulfillments with
    | .error e => .error e
    | .ok p =>
      match lineItemPhase order.line_items p.1 with
      | .error e => .error e
      | .ok tn2 =>
        match shippingPhase order.shipping_lines with
        | .error e => .error e
        | .ok _ => .ok ⟨tn2, p.2.1, p.2.2⟩

/-! Pure characterizations of the phases, used to prove totality and the
value-level claims. -/

/-- Value of the first-fulfillment scan. -/
def pickedNumber (fulfillment : Fulfillment) : String :=
  match fulfillment.tracking_numbers with
  | .val (n :: _) => n
  | _ =>
    match fulfillment.tracking_number with
    | .val s => if s = "" then "Not Available" else s
    | _ => "Not Available"

def pickedLink (fulfillment : Fulfillment) : String :=
  match fulfillment.tracking_urls with
  | .val (u :: _) => u
  | _ =>
    match fulfillment.tracking_url with
    | .val s => if s = "" then "No link" else s
    | _ => "No link"

def pickedCompany (fulfillment : Fulfillment) : String :=
  match fulfillment.tracking_company with
  | .val s => if s = "" then "Not specified" else s
  | _ => "Not specified"

def fulfillmentResult (fulfillments : JField (List Fulfillment)) :
    String × String × String :=
  match fulfillments with
  | .val (fu :: _) => (pickedNumber fu, pickedLink fu, pickedCompany fu)
  | _ => ("Not Available", "No link", "Not specified")

/-- The tracking value a line item carries, when its `fulfillment` object and
`tracking_number` are both truthy. -/
def itemTracking (item : LineItem) : Option String :=
  match item.fulfillment with
  | .val f =>
    match f.tracking_number with
    | .val s => if s = "" then none else some s
    | _ => none
  | _ => none

def lineStepPure (tn : String) (item : LineItem) : String :=
  match itemTracking item with
  | some t => if tn = "Not Available" then t else tn
  | none => tn

def lineResult (line_items : JField (List LineItem)) (tn : String) : String :=
  match line_items with
  | .val items => items.foldl lineStepPure tn
  | _ => tn

theorem debugFulfillments_ok (f : JField (List Fulfillment)) :
    debugFulfillments f = .ok () := by
  cases f with
  | val l => cases l <;> simp [debugFulfillments, jArrNonempty, jTruthyObj, jget]
  | absent => rfl
  | nullv => rfl

theorem shippingPhase_ok (s : JField (List ShippingLine)) :
    shippingPhase s = .ok () := by
  cases s <;> rfl

theorem pickTrackingNumber_ok (fu : Fulfillment) :
    pickTrackingNumber fu = .ok (pickedNumber fu) := by
  cases h : fu.tracking_numbers with
  | val l =>
    cases l with
    | cons n t =>
      simp [pickTrackingNumber, pickedNumber, jArrNonempty, jTruthyObj, jget, h]
    | nil =>
      cases h2 : fu.tracking_number with
      | val s =>
        by_cases hs : s = "" <;>
          simp [pickTrackingNumber, pickedNumber, jArrNonempty, jTruthyObj,
            jTruthyStr, jget, h, h2, hs]
      | absent =>
        simp [pickTrackingNumber, pickedNumber, jArrNonempty, jTruthyObj,
          jTruthyStr, jget, h, h2]
      | nullv =>
        simp [pickTrackingNumber, pickedNumber, jArrNonempty, jTruthyObj,
          jTruthyStr, jget, h, h2]
  | absent =>
    cases h2 : fu.tracking_number with
    | val s =>
      by_cases hs : s = "" <;>
        simp [pickTrackingNumber, pickedNumber, jArrNonempty, jTruthyObj,
          jTruthyStr, jget, h, h2, hs]
    | absent =>
      simp [pickTrackingNumber, pickedNumber, jArrNonempty, jTruthyObj,
        jTruthyStr, jget, h, h2]
    | nullv =>
      simp [pickTrackingNumber, pickedNumber, jArrNonempty, jTruthyObj,
        jTruthyStr, jget, h, h2]
  | nullv =>
    cases h2 : fu.tracking_number with
    | val s =>
      by_cases hs : s = "" <;>
        simp [pickTrackingNumber, pickedNumber, jArrNonempty, jTruthyObj,
          jTruthyStr, jget, h, h2, hs]
    | absent =>
      simp [pickTrackingNumber, pickedNumber, jArrNonempty, jTruthyObj,
        jTruthyStr, jget, h, h2]
    | nullv =>
      simp [pickTrackingNumber, pickedNumber, jArrNonempty, jTruthyObj,
        jTruthyStr, jget, h, h2]

theorem pickTrackingLink_ok (fu : Fulfillment) :
    pickTrackingLink fu = .ok (pickedLink fu) := by
  cases h : fu.tracking_urls with
  | val l =>
    cases l with
    | cons n t =>
      simp [pickTrackingLink, pickedLink, jArrNonempty, jTruthyObj, jget, h]
    | nil =>
      cases h2 : fu.tracking_url with
      | val s =>
        by_cases hs : s = "" <;>
          simp [pickTrackingLink, pickedLink, jArrNonempty, jTruthyObj,
            jTruthyStr, jget, h, h2, hs]
      | absent =>
        simp [pickTrackingLink, pickedLink, jArrNonempty, jTruthyObj,
          jTruthyStr, jget, h, h2]
      | nullv =>
        simp [pickTrackingLink, pickedLink, jArrNonempty, jTruthyObj,
          jTruthyStr, jget, h, h2]
  | absent =>
    cases h2 : fu.tracking_url with
    | val s =>
      by_cases hs : s = "" <;>
        simp [pickTrackingLink, pickedLink, jArrNonempty, jTruthyObj,
          jTruthyStr, jget, h, h2, hs]
    | absent =>
      simp [pickTrackingLink, pickedLink, jArrNonempty, jTruthyObj,
        jTruthyStr, jget, h, h2]
    | nullv =>
      simp [pickTrackingLink, pickedLink, jArrNonempty, jTruthyObj,
        jTruthyStr, jget, h, h2]
  | nullv =>
    cases h2 : fu.tracking_url with
    | val s =>
      by_cases hs : s = "" <;>
        simp [pickTrackingLink, pickedLink, jArrNonempty, jTruthyObj,
          jTruthyStr, jget, h, h2, hs]
    | absent =>
      simp [pickTrackingLink, pickedLink, jArrNonempty, jTruthyObj,
        jTruthyStr, jget, h, h2]
    | nullv =>
      simp [pickTrackingLink, pickedLink, jArrNonempty, jTruthyObj,
        jTruthyStr, jget, h, h2]

theorem pickTrackingCompany_ok (fu : Fulfillment) :
    pickTrackingCompany fu = .ok (pickedCompany fu) := by
  cases h : fu.tracking_company with
  | val s =>
    by_cases hs : s = "" <;>
      simp [pickTrackingCompany, pickedCompany, jTruthyStr, jget, h, hs]
  | absent => simp [pickTrackingCompany, pickedCompany, jTruthyStr, jget, h]
  | nullv => simp [pickTrackingCompany, pickedCompany, jTruthyStr, jget, h]

theorem fulfillmentPhase_ok (f : JField (List Fulfillment)) :
    fulfillmentPhase f = .ok (fulfillmentResult f) := by
  cases f with
  | val l =>
    cases l with
    | nil => rfl
    | cons fu t =>
      simp [fulfillmentPhase, fulfillmentResult, jArrNonempty, jTruthyObj,
        jget, jelem, pickTrackingNumber_ok, pickTrackingLink_ok,
        pickTrackingCompany_ok]
  | absent => rfl
  | nullv => rfl

theorem lineItemStep_ok (tn : String) (item : LineItem) :
    lineItemStep tn item = .ok (lineStepPure tn item) := by
  cases h : item.fulfillment with
  | val f =>
    cases h2 : f.tracking_number with
    | val s =>
      by_cases hs : s = "" <;>
        simp [lineItemStep, lineStepPure, itemTracking, jTruthyObj, jTruthyStr,
          jget, h, h2, hs] <;>
        split <;> rfl
    | absent =>
      simp [lineItemStep, lineStepPure, itemTracking, jTruthyObj, jTruthyStr,
        jget, h, h2]
    | nullv =>
      simp [lineItemStep, lineStepPure, itemTracking, jTruthyObj, jTruthyStr,
        jget, h, h2]
  | absent => simp [lineItemStep, lineStepPure, itemTracking, jTruthyObj, h]
  | nullv => simp [lineItemStep, lineStepPure, itemTracking, jTruthyObj, h]

theorem lineItemsLoop_ok (items : List LineItem) (tn : String) :
    lineItemsLoop items tn = .ok (items.foldl lineStepPure tn) := by
  induction items generalizing tn with
  | nil => rfl
  | cons it rest ih =>
    have h := lineItemStep_ok tn it
    simp [lineItemsLoop, h, ih]

theorem lineItemPhase_ok (li : JField (List LineItem)) (tn : String) :
    lineItemPhase li tn = .ok (lineResult li tn) := by
  cases li <;>
    simp [lineItemPhase, lineResult, jTruthyObj, jget, lineItemsLoop_ok]

/-- The extraction always succeeds, with the value determined by the pure
characterizations of its phases. -/
theorem extractTrackingInfoE_eq (order : Order) :
    extractTrackingInfoE order =
      .ok ⟨lineResult order.line_items (fulfillmentResult order.fulfillments).1,
           (fulfillmentResult order.fulfillments).2.1,
           (fulfillmentResult order.fulfillments).2.2⟩ := by
  simp [extractTrackingInfoE, debugFulfillments_ok, fulfillmentPhase_ok,
    lineItemPhase_ok, shippingPhase_ok]

/-- C9: `extractTrackingInfoE` never raises: whatever the shape of the
order's fulfillments, tracking fields, line items, item fulfillments and
shipping lines (absent, null, empty or populated), it returns a
`TrackingInfo` value. -/
theorem C9_extract_never_raises (order : Order) :
    ∃ t : TrackingInfo, extractTrackingInfoE order = Except.ok t :=
  ⟨_, extractTrackingInfoE_eq order⟩

/-- The `fulfillments` field is absent, null, or an empty array. -/
def fulfillmentsEmptyB {α : Type} : JField (List α) → Bool
  | .val l => l.isEmpty
  | _ => true

/-- Some line item carries a truthy `item.fulfillment.tracking_number`. -/
def hasItemTrackingB : JField (List LineItem) → Bool
  | .val items => items.any (fun i => (itemTracking i).isSome)
  | _ => false

/-- The first line-item tracking value distinct from the sentinel
"Not Available", or the sentinel when there is none. -/
def firstRealTracking (items : List LineItem) : String :=
  (((items.filterMap itemTracking).filter (fun v => ¬v = "Not Available")).headD
    "Not Available")

theorem fulfillmentResult_empty {f : JField (List Fulfillment)}
    (hf : fulfillmentsEmptyB f = true) :
    fulfillmentResult f = ("Not Available", "No link", "Not specified") := by
  cases f with
  | val l =>
    cases l with
    | nil => rfl
    | cons a t => simp [fulfillmentsEmptyB] at hf
  | absent => rfl
  | nullv => rfl

theorem foldl_lineStepPure_keep (items : List LineItem) (tn : String)
    (h : ¬tn = "Not Available") : items.foldl lineStepPure tn = tn := by
  induction items with
  | nil => rfl
  | cons it rest ih =>
    rw [List.foldl_cons,
      show lineStepPure tn it = tn from by
        unfold lineStepPure
        cases itemTracking it <;> simp [h]]
    exact ih

theorem foldl_lineStepPure_sentinel (items : List LineItem) :
    items.foldl lineStepPure "Not Available" = firstRealTracking items := by
  induction items with
  | nil => rfl
  | cons it rest ih =>
    rw [List.foldl_cons]
    cases hit : itemTracking it with
    | none =>
      rw [show lineStepPure "Not Available" it = "Not Available" from by
        simp [lineStepPure, hit]]
      rw [ih]
      simp [firstRealTracking, List.filterMap_cons, hit]
    | some t =>
      by_cases ht : t = "Not Available"
      · subst ht
        rw [show lineStepPure "Not Available" it = "Not Available" from by
          simp [lineStepPure, hit]]
        rw [ih]
        simp [firstRealTracking, List.filterMap_cons, hit]
      · rw [show lineStepPure "Not Available" it = t from by
          simp [lineStepPure, hit]]
        rw [foldl_lineStepPure_keep rest t ht]
        simp [firstRealTracking, List.filterMap_cons, hit, List.filter_cons, ht]

/-- C6: counterexample.  An order with no `fulfillments` at all but one line
item carrying `item.fulfillment.tracking_number = "TRK123"`: the extractor
returns "TRK123" as the tracking number (src/index.js:231-240), not the
claimed all-default record. -/
theorem C6_no_fulfillments_cex :
    (WpOC.Order.fulfillments
      { name := none, total_price := none, customer := none, gateway := none,
        shipping_address := none, billing_address := none,
        line_items := .val
          [{ name := none, quantity := 1, fulfillment := .val ⟨.val "TRK123"⟩ }],
        fulfillments := .absent, shipping_lines := .absent } = JField.absent) ∧
    extractTrackingInfoE
      { name := none, total_price := none, customer := none, gateway := none,
        shipping_address := none, billing_address := none,
        line_items := .val
          [{ name := none, quantity := 1, fulfillment := .val ⟨.val "TRK123"⟩ }],
        fulfillments := .absent, shipping_lines := .absent } =
      .ok ⟨"TRK123", "No link", "Not specified"⟩ ∧
    ¬(TrackingInfo.mk "TRK123" "No link" "Not specified" =
      TrackingInfo.mk "Not Available" "No link" "Not specified") := by
  refine ⟨rfl, ?_, by decide⟩
  rw [extractTrackingInfoE_eq]
  rfl

/-- C6 (amended): for every order whose `fulfillments` field is absent, null
or empty AND none of whose line items carries a truthy embedded
`fulfillment.tracking_number`, the extractor returns exactly the defaults
`⟨"Not Available", "No link", "Not specified"⟩`. -/
theorem C6_no_fulfillments_defaults (order : Order)
    (hf : fulfillmentsEmptyB order.fulfillments = true)
    (hi : hasItemTrackingB order.line_items = false) :
    extractTrackingInfoE order =
      .ok ⟨"Not Available", "No link", "Not specified"⟩ := by
  rw [extractTrackingInfoE_eq, fulfillmentResult_empty hf]
  have h2 : lineResult order.line_items "Not Available" = "Not Available" := by
    cases ho : order.line_items with
    | val items =>
      rw [ho] at hi
      simp only [hasItemTrackingB] at hi
      rw [lineResult, foldl_lineStepPure_sentinel]
      have hall : items.filterMap itemTracking = [] := by
        rw [List.filterMap_eq_nil_iff]
        intro a ha
        by_contra hne
        have ht : (items.any fun i => (itemTracking i).isSome) = true :=
          List.any_eq_true.mpr ⟨a, ha, by simp [Option.isSome_iff_ne_none, hne]⟩
        rw [hi] at ht
        simp at ht
      simp [firstRealTracking, hall]
    | absent => rfl
    | nullv => rfl
  simp [h2]

/-- C6 (amended) witness: a fully-absent order yields exactly the defaults. -/
theorem C6_no_fulfillments_defaults_witness :
    extractTrackingInfoE
      { name := none, total_price := none, customer := none, gateway := none,
        shipping_address := none, billing_address := none,
        line_items := .absent, fulfillments := .absent,
        shipping_lines := .absent } =
      .ok ⟨"Not Available", "No link", "Not specified"⟩ :=
  C6_no_fulfillments_defaults _ (by decide) (by decide)

/-- C10: counterexample.  With no fulfillments and line items whose embedded
tracking values are ["Not Available", "TRK2"], the first such value is
"Not Available", but the extractor returns "TRK2": the `=== "Not Available"`
guard (src/index.js:235) cannot distinguish a literal sentinel value, so a
later item overwrites, refuting "the returned tracking number is the first
such line-item value". -/
theorem C10_line_scan_cex :
    List.filterMap itemTracking
      [{ name := none, quantity := 1, fulfillment := .val ⟨.val "Not Available"⟩ },
       { name := none, quantity := 1, fulfillment := .val ⟨.val "TRK2"⟩ }] =
      ["Not Available", "TRK2"] ∧
    extractTrackingInfoE
      { name := none, total_price := none, customer := none, gateway := none,
        shipping_address := none, billing_address := none,
        line_items := .val
          [{ name := none, quantity := 1, fulfillment := .val ⟨.val "Not Available"⟩ },
           { name := none, quantity := 1, fulfillment := .val ⟨.val "TRK2"⟩ }],
        fulfillments := .absent, shipping_lines := .absent } =
      .ok ⟨"TRK2", "No link", "Not specified"⟩ ∧
    ¬("TRK2" = "Not Available") := by
  refine ⟨by decide, ?_, by decide⟩
  rw [extractTrackingInfoE_eq]
  rfl

/-- C10 (amended): when `fulfillments` is absent/empty and `line_items` is an
array, the line-item scan still runs and the returned tracking number is the
first embedded line-item tracking value distinct from the sentinel
"Not Available" (the sentinel itself when there is none); link and carrier
stay at their defaults. -/
theorem C10_line_scan (order : Order) (items : List LineItem)
    (hf : fulfillmentsEmptyB order.fulfillments = true)
    (hi : order.line_items = .val items) :
    extractTrackingInfoE order =
      .ok ⟨firstRealTracking items, "No link", "Not specified"⟩ := by
  rw [extractTrackingInfoE_eq, fulfillmentResult_empty hf]
  simp [lineResult, hi, foldl_lineStepPure_sentinel]

/-- C10 (amended) witness: one line item with tracking "TRK9" and no
fulfillments. -/
theorem C10_line_scan_witness :
    extractTrackingInfoE
      { name := none, total_price := none, customer := none, gateway := none,
        shipping_address := none, billing_address := none,
        line_items := .val
          [{ name := none, quantity := 1, fulfillment := .val ⟨.val "TRK9"⟩ }],
        fulfillments := .val [], shipping_lines := .absent } =
      .ok ⟨"TRK9", "No link", "Not specified"⟩ :=
  (C10_line_scan _ _ (by decide) rfl).trans (by rfl)

/-! ## MessageComposer pieces and the two webhook handlers -/

/-- Match `\s*,` at the head of the list (greedy whitespace, then a comma);
returns the remainder after the comma. -/
def wsThenComma (l : List Char) : Option (List Char) :=
  match l.dropWhile isJsWhitespace with
  | ',' :: rest => some rest
  | _ => none

theorem length_dropWhile_le_own (p : Char → Bool) (l : List Char) :
    (l.dropWhile p).length ≤ l.length := by
  induction l with
  | nil => simp
  | cons c t ih =>
    rw [List.dropWhile_cons]
    split
    · simp only [List.length_cons]; omega
    · simp

theorem wsThenComma_length (l r : List Char) (h : wsThenComma l = some r) :
    r.length < l.length + 1 := by
  unfold wsThenComma at h
  split at h
  · next rest heq =>
    obtain rfl : rest = r := Option.some.inj h
    have h1 : (l.dropWhile isJsWhitespace).length ≤ l.length :=
      length_dropWhile_le_own isJsWhitespace l
    rw [heq] at h1
    simp at h1
    omega
  · exact absurd h (by simp)

/-- JS `str.replace(/,\s*,/g, ',')`: left-to-right global replacement, each
match (`,` whitespace `,`) rewritten to a single `,`, scanning resuming after
the match. -/
def collapseCommaRun : List Char → List Char
  | [] => []
  | ',' :: rest =>
    match h : wsThenComma rest with
    | some rest2 => ',' :: collapseCommaRun rest2
    | none => ',' :: collapseCommaRun rest
  | c :: rest => c :: collapseCommaRun rest
termination_by l => l.length
decreasing_by
  · exact wsThenComma_length rest rest2 h
  · simp
  · simp

/-- The `,\s*$` alternative of the edge-cleanup regex: delete the leftmost
comma that is followed only by whitespace, together with that whitespace. -/
def stripTrailingCommaWs : List Char → List Char
  | [] => []
  | ',' :: rest =>
    if rest.all isJsWhitespace then [] else ',' :: stripTrailingCommaWs rest
  | c :: rest => c :: stripTrailingCommaWs rest

/-- JS `str.replace(/^,\s*|,\s*$/g, '')`: one leading `,` with its following
whitespace, and the comma-then-only-whitespace tail. -/
def stripEdgeCommas (l : List Char) : List Char :=
  stripTrailingCommaWs
    (match l with
     | ',' :: rest => rest.dropWhile isJsWhitespace
     | _ => l)

/-- JS `a || b` on object-valued operands (any present object is truthy). -/
def jsOrObj {α : Type} (a b : Option α) : Option α :=
  match a with
  | some x => some x
  | none => b

/-- src/index.js:435-437 — `fullAddress`: the template literal over
`shipping_address || billing_address` plus the two regex cleanups, or the
fallback text. -/
def formatFullAddress (shipping billing : Option Address) : String :=
  match jsOrObj shipping billing with
  | some address =>
    let rawStr := jsOrD address.name "" ++ ", " ++ jsOrD address.address1 "" ++ ", " ++
      jsOrD address.address2 "" ++ ", " ++ jsStr address.city ++ ", " ++
      jsStr address.province ++ ", " ++ jsStr address.zip ++ ", " ++ jsStr address.country
    String.mk (stripEdgeCommas (collapseCommaRun rawStr.data))
  | none => "Address not provided"

/-- src/index.js:442 — one entry of the admin `products` listing: the unit is
always "nos". -/
def productEntryAdmin (index : Nat) (item : LineItem) : String :=
  toString (index + 1) ++ ". " ++ jsStr item.name ++ " - " ++
    toString item.quantity ++ " nos"

/-- src/index.js:462 and 511 — one entry of the customer-facing listings:
"no" with "s" appended when the quantity exceeds 1. -/
def productEntryCustomer (idx : Nat) (item : LineItem) : String :=
  toString (idx + 1) ++ ". " ++ jsStr item.name ++ " - " ++
    toString item.quantity ++ " no" ++ (if 1 < item.quantity then "s" else "")

/-- src/index.js:440-444 — `products` for the admin new-order template
("No items" when `line_items` is not a present array). -/
def formatProductsAdmin (line_items : JField (List LineItem)) : String :=
  match line_items with
  | .val items => ", ".intercalate (items.enum.map (fun p => productEntryAdmin p.1 p.2))
  | _ => "No items"

/-- src/index.js:460-464 (`productsList`) and 509-513 (`shippedItems`). -/
def formatProductsCustomer (line_items : JField (List LineItem)) : String :=
  match line_items with
  | .val items => ", ".intercalate (items.enum.map (fun p => productEntryCustomer p.1 p.2))
  | _ => "No items"

/-- An outbound dispatch performed by a handler: the admin fanout call
(`sendAdminWhatsapp` with a template and base parameters) or a single
customer template send. -/
inductive Dispatch where
  | adminTemplate (templateName : String) (baseParams : List (Option String))
  | customerTemplate (phone : String) (templateName : String)
      (params : List (Option String))
deriving DecidableEq, Repr

/-- src/index.js:430 — `customer.phone || customer.default_address?.phone ||
"Not Provided"`. -/
def contactPhone (customer : Customer) : String :=
  jsOrD (jsOr customer.phone (customer.default_address.bind DefaultAddress.phone))
    "Not Provided"

/-- src/index.js:447-455 — base parameters of the `admin_new_order` fanout
(`orderId` is passed through raw, so it may be undefined). -/
def adminNewOrderParams (order : Order) (customer : Customer) : List (Option String) :=
  [order.name,
   some (jsTrim (jsOrD customer.first_name "" ++ " " ++ jsOrD customer.last_name "")),
   some (contactPhone customer),
   some (formatFullAddress order.shipping_address order.billing_address),
   some (jsOrD order.gateway "Not specified"),
   some (formatProductsAdmin order.line_items),
   some (jsOrD order.total_price "0")]

/-- src/index.js:466-475 — parameters of the customer `order_confirmation`
template. -/
def orderConfirmationParams (order : Order) (customer : Customer) : List (Option String) :=
  [some (jsOrD customer.first_name "Customer"),
   some (jsOrD order.name "Order"),
   some (jsOrD order.total_price "N/A"),
   some (formatProductsCustomer order.line_items)]

/-- src/index.js:406-487 — the `POST /webhook/orders/create` handler after a
passing signature check: HTTP status, response body, and the outbound
dispatches, in order.  A `none` body models a falsy or non-object payload. -/
def ordersCreateHandler (body : Option Order) : Nat × String × List Dispatch :=
  match body with
  | none => (400, "Invalid payload", [])  -- !order || typeof order !== "object"
  | some order =>
    match order.customer with
    | none => (400, "Missing customer info", [])
    | some customer =>
      let adminLeg := Dispatch.adminTemplate "admin_new_order"
        (adminNewOrderParams order customer)
      match getCustomerPhone (some customer) with
      | some customerPhone =>
        (200, "OK",
         [adminLeg,
          Dispatch.customerTemplate customerPhone "order_confirmation"
            (orderConfirmationParams order customer)])
      | none => (200, "OK", [adminLeg])  -- "⚠️ Customer phone not available..."

/-- `customerName || "Customer"`-style fallback on a computed string. -/
def jsOrS (s d : String) : String := if s = "" then d else s

/-- src/index.js:538-545 — base parameters of the `admin_order_fulfilled`
fanout. -/
def adminFulfilledParams (order : Order) (customer : Customer)
    (phone : Option String) (tracking : TrackingInfo) : List (Option String) :=
  [some (jsOrD order.name "N/A"),
   some (jsOrS (jsTrim (jsOrD customer.first_name "" ++ " " ++ jsOrD customer.last_name ""))
     "Customer"),
   some (jsOrD phone "Not Provided"),
   some (formatProductsCustomer order.line_items),
   some tracking.trackingNumber,
   some tracking.trackingLink]

/-- src/index.js:521-531 — parameters of the customer `order_fulfilled`
template. -/
def orderFulfilledParams (order : Order) (customer : Customer)
    (tracking : TrackingInfo) : List (Option String) :=
  [some (jsOrD customer.first_name "Customer"),
   some (jsOrD order.name "N/A"),
   some (formatProductsCustomer order.line_items),
   some tracking.trackingNumber,
   some tracking.trackingLink]

/-- src/index.js:490-554 — the body of the `POST /webhook/orders/fulfilled`
handler inside its outer `try` (an uncaught exception becomes the 500
response).  The handler reads `order.customer` without a payload guard, so a
missing body raises. -/
def ordersFulfilledBody (body : Option Order) : Except String (Nat × String × List Dispatch) :=
  match body with
  | none => .error "TypeError: cannot read properties of undefined"
  | some order =>
    match order.customer with
    | none => .ok (400, "Missing customer info", [])  -- !customer || typeof customer !== "object"
    | some customer =>
      let phone := getCustomerPhone (some customer)
      match extractTrackingInfoE order with
      | .error e => .error e
      | .ok trackingInfo =>
        let customerLeg :=
          match phone with
          | some p =>
            [Dispatch.customerTemplate p "order_fulfilled"
              (orderFulfilledParams order customer trackingInfo)]
          | none => []  -- "⚠️ Customer phone not available..."
        .ok (200, "OK",
          customerLeg ++
            [Dispatch.adminTemplate "admin_order_fulfilled"
              (adminFulfilledParams order customer phone trackingInfo)])

/-- The fulfilled-order handler with its outer catch. -/
def ordersFulfilledHandler (body : Option Order) : Nat × String × List Dispatch :=
  match ordersFulfilledBody body with
  | .ok r => r
  | .error _ => (500, "Internal server error", [])

/-- C4: an order-creation payload that is an object without a `customer`
field gets the 400 "Missing customer info" response, and neither the admin
fanout nor the customer send is attempted. -/
theorem C4_missing_customer (order : Order) (h : order.customer = none) :
    ordersCreateHandler (some order) = (400, "Missing customer info", []) := by
  simp [ordersCreateHandler, h]

/-- C4 witness: a concrete customer-less payload. -/
theorem C4_missing_customer_witness :
    ordersCreateHandler
      (some { name := some "#1001", total_price := some "100", customer := none,
              gateway := none, shipping_address := none, billing_address := none,
              line_items := .absent, fulfillments := .absent,
              shipping_lines := .absent }) =
      (400, "Missing customer info", []) :=
  C4_missing_customer _ rfl

/-- C5: with a customer present but phone normalization failing, both
handlers still perform the admin fanout dispatch, skip only the customer
notification leg, and respond 200 "OK". -/
theorem C5_phone_failure_degrades (order : Order) (customer : Customer)
    (hc : order.customer = some customer)
    (hp : getCustomerPhone (some customer) = none) :
    ordersCreateHandler (some order) =
      (200, "OK",
       [Dispatch.adminTemplate "admin_new_order" (adminNewOrderParams order customer)]) ∧
    ∃ tracking : TrackingInfo,
      ordersFulfilledHandler (some order) =
        (200, "OK",
         [Dispatch.adminTemplate "admin_order_fulfilled"
           (adminFulfilledParams order customer none tracking)]) := by
  constructor
  · simp [ordersCreateHandler, hc, hp]
  · refine ⟨⟨lineResult order.line_items (fulfillmentResult order.fulfillments).1,
      (fulfillmentResult order.fulfillments).2.1,
      (fulfillmentResult order.fulfillments).2.2⟩, ?_⟩
    simp [ordersFulfilledHandler, ordersFulfilledBody, hc, hp, extractTrackingInfoE_eq]

/-- A concrete customer whose phone ("12345") is too short to normalize. -/
def c5Customer : Customer :=
  { first_name := some "Asha", last_name := none, phone := some "12345",
    default_address := none }

/-- A concrete order payload carrying `c5Customer`. -/
def c5Order : Order :=
  { name := some "#1002", total_price := some "250", customer := some c5Customer,
    gateway := some "razorpay", shipping_address := none, billing_address := none,
    line_items := .val [{ name := some "Soap", quantity := 2, fulfillment := .absent }],
    fulfillments := .absent, shipping_lines := .absent }

/-- C5 witness: both handlers at the concrete order. -/
theorem C5_phone_failure_degrades_witness :
    ordersCreateHandler (some c5Order) =
      (200, "OK",
       [Dispatch.adminTemplate "admin_new_order" (adminNewOrderParams c5Order c5Customer)]) ∧
    ∃ tracking : TrackingInfo,
      ordersFulfilledHandler (some c5Order) =
        (200, "OK",
         [Dispatch.adminTemplate "admin_order_fulfilled"
           (adminFulfilledParams c5Order c5Customer none tracking)]) :=
  C5_phone_failure_degrades c5Order c5Customer rfl (by decide)

theorem str_append_assoc (a b c : String) : a ++ b ++ c = a ++ (b ++ c) := by
  cases a; cases b; cases c
  exact congrArg String.mk (List.append_assoc _ _ _)

/-- C8: counterexample.  The admin new-order products listing renders
quantity 1 as "1 nos" (src/index.js:442 appends "s" unconditionally), so the
pluralization rule does not hold in every listing the code composes. -/
theorem C8_pluralization_cex :
    formatProductsAdmin
      (.val [{ name := some "Soap", quantity := 1, fulfillment := .absent }]) =
      "1. Soap - 1 nos" ∧
    ¬("1. Soap - 1 nos" = "1. Soap - 1 no") := by decide

/-- C8 (amended): the customer-facing listings (order-confirmation
`productsList` and fulfillment `shippedItems`) render the unit as "no" with
"s" appended exactly when the quantity exceeds 1; the admin new-order
listing always renders "nos", including at quantity 1. -/
theorem C8_pluralization (idx : Nat) (item : LineItem) :
    productEntryCustomer idx item =
      toString (idx + 1) ++ ". " ++ jsStr item.name ++ " - " ++
        toString item.quantity ++ (if 1 < item.quantity then " nos" else " no") ∧
    productEntryAdmin idx item =
      toString (idx + 1) ++ ". " ++ jsStr item.name ++ " - " ++
        toString item.quantity ++ " nos" := by
  constructor
  · by_cases h : 1 < item.quantity <;>
      simp [productEntryCustomer, h, str_append_assoc]
  · rfl

/-- C8 (amended) witness: quantities 1 and 2 in both listing styles. -/
theorem C8_pluralization_witness :
    productEntryCustomer 0 { name := some "Soap", quantity := 1, fulfillment := .absent } =
      "1. Soap - 1 no" ∧
    productEntryCustomer 0 { name := some "Soap", quantity := 2, fulfillment := .absent } =
      "1. Soap - 2 nos" ∧
    productEntryAdmin 0 { name := some "Soap", quantity := 1, fulfillment := .absent } =
      "1. Soap - 1 nos" :=
  ⟨(C8_pluralization 0 _).1.trans (by decide),
   (C8_pluralization 0 _).1.trans (by decide),
   (C8_pluralization 0 _).2.trans (by decide)⟩

/-- C7 witness: a concrete configuration triple, evaluated. -/
theorem C7_admin_directory_witness :
    getAdminDetails (some "98, 9133, ,x") (some "A,,B") none =
      [⟨"9198", "A", "98"⟩, ⟨"9133", "Admin", "9133"⟩, ⟨"91x", "B", "x"⟩] :=
  (C7_admin_directory _ _ _).trans (by decide)

/-- C9 witness: the extraction succeeds on a concrete all-absent order. -/
theorem C9_extract_never_raises_witness :
    ∃ t : TrackingInfo,
      extractTrackingInfoE
        { name := none, total_price := none, customer := none, gateway := none,
          shipping_address := none, billing_address := none,
          line_items := .nullv, fulfillments := .nullv,
          shipping_lines := .nullv } = Except.ok t :=
  C9_extract_never_raises _

end WpOC
